import Mathlib

/-!
Verification of the VBO term-merge script
(`src/scripts/dadis_client/vbo_sandbox.ipynb`).

The core of the script is a single pandas function `merge(df, term_to_obsolete,
term_to_merge_into, issue)` that selects the rows for the two term ids,
derives an obsoletion row and a synonym row from the obsolete-term row,
and concatenates them with the untouched replacement-term row.

We embed the dataframe operations the function uses shallowly:

* a row is an association list from column name to cell value,
* a table is a column list together with an ordered list of rows,
* `df[col]` on a missing column is a key error, `.values[0]` on an empty
  selection is an index error (pandas `KeyError` / `IndexError`),
* scalar column assignment `df[col] = v` sets the column on every row of the
  frame and creates the column when absent (as pandas does),
* `pd.concat` concatenates the row lists and unions the column lists.

`merge` is the direct translation of the notebook function.  `mergeH` is the
same function with the pandas object semantics made explicit: dataframes live in
a heap, variables are references, `.copy()` allocates, and the in-place
column assignments are heap writes; it is used to state that the input frame
is never mutated.
-/

namespace VBO

/-- A cell error raised by a dataframe operation: a pandas `KeyError` on a
missing column, or an `IndexError` from `.values[0]` on an empty selection. -/
inductive MergeError where
  | keyError (col : String) : MergeError
  | indexError : MergeError
deriving DecidableEq, Repr

/-- A table row: an association list from column name to cell value. -/
abbrev Row := List (String × String)

/-- Look a column up in a row (`none` when the row has no such cell). -/
def getCell (r : Row) (c : String) : Option String :=
  (r.find? (fun p => p.1 == c)).map (fun p => p.2)

/-- The value of column `c` in row `r`, with the empty string for a missing
cell (pandas renders missing cells of a TSV as blanks/NaN). -/
def cellD (r : Row) (c : String) : String :=
  (getCell r c).getD ""

/-- Set column `c` of row `r` to `v`: replace the existing cell, or append a
new cell when the row does not have the column yet. -/
def setCell (r : Row) (c v : String) : Row :=
  if r.any (fun p => p.1 == c) then
    r.map (fun p => if p.1 == c then (c, v) else p)
  else
    r ++ [(c, v)]

/-- A dataframe: a header (the column list) and an ordered list of rows. -/
structure Table where
  cols : List String
  rows : List Row
deriving DecidableEq, Repr

deriving instance DecidableEq for Except

/-- `df[df[c] == v]`: the rows whose cell in column `c` equals `v`; the
column set is unchanged.  (The caller checks that `c` is a column.) -/
def selectEq (t : Table) (c v : String) : Table :=
  ⟨t.cols, t.rows.filter (fun r => cellD r c == v)⟩

/-- `df[c]` as a series: a key error when `c` is not a column, otherwise the
list of the values in the column. -/
def getSeries (t : Table) (c : String) : Except MergeError (List String) :=
  if c ∈ t.cols then .ok (t.rows.map (fun r => cellD r c)) else .error (.keyError c)

/-- `.values[0]`: the first element of a series, an index error when the
series is empty. -/
def seriesHead (xs : List String) : Except MergeError String :=
  match xs with
  | [] => .error .indexError
  | x :: _ => .ok x

/-- `df[c].values[0]`. -/
def firstVal (t : Table) (c : String) : Except MergeError String :=
  match getSeries t c with
  | .error e => .error e
  | .ok xs => seriesHead xs

/-- Scalar column assignment `df[c] = v`: every row gets the value, and the
column is appended to the header when it is new. -/
def setColTable (t : Table) (c v : String) : Table :=
  ⟨if c ∈ t.cols then t.cols else t.cols ++ [c],
   t.rows.map (fun r => setCell r c v)⟩

/-- Elementwise update `df[c] = f(df[c])` (used for
`"obsolete " + df["term_label"]`): a key error when `c` is not a column. -/
def mapColTable (t : Table) (c : String) (f : String → String) :
    Except MergeError Table :=
  if c ∈ t.cols then
    .ok ⟨t.cols, t.rows.map (fun r => setCell r c (f (cellD r c)))⟩
  else
    .error (.keyError c)

/-- The blanking loop

    for column in df.columns:
        if column not in list_of_columns_to_keep:
            df[column] = ''

iterating over the column list of the frame and assigning the empty string to
every column not in `keep`. -/
def blankCols (t : Table) (keep : List String) : Table :=
  t.cols.foldl (fun acc c => if c ∈ keep then acc else setColTable acc c "") t

/-- Union of two column lists, keeping first-appearance order (the column
index of `pd.concat`). -/
def unionCols (a b : List String) : List String :=
  a ++ b.filter (fun c => !(a.contains c))

/-- `pd.concat`: rows are concatenated in order; the header is the union of
the headers (a row simply lacks the cells of columns its frame did not have,
as with the NaN fill of pandas). -/
def concatTables (ts : List Table) : Table :=
  ⟨ts.foldl (fun acc t => unionCols acc t.cols) [], (ts.map Table.rows).flatten⟩

/-- The fixed-format issue URL
`"https://github.com/monarch-initiative/vertebrate-breed-ontology/issues/{issue}"`. -/
def ghIssueURL (issue : Nat) : String :=
  "https://github.com/monarch-initiative/vertebrate-breed-ontology/issues/" ++ toString issue

/-- The columns the obsoletion row keeps from the obsolete row
(`list_of_columns_to_keep`). -/
def keepCols : List String := ["term_label", "vbo_id", "contributor"]

/-- `merge(df, term_to_obsolete, term_to_merge_into, issue)`, translated
line by line from the notebook.  The two selections and the copy are values
here; `mergeH` below makes the copies and the in-place writes explicit. -/
def merge (df : Table) (term_to_obsolete term_to_merge_into : String)
    (issue : Nat) : Except MergeError Table :=
  if "vbo_id" ∈ df.cols then
    let df_term_to_merge_into := selectEq df "vbo_id" term_to_merge_into
    let df_term_to_obsolete := selectEq df "vbo_id" term_to_obsolete
    let df_term_to_obsolete2 := df_term_to_obsolete
    match firstVal df_term_to_merge_into "term_label" with
    | .error e => .error e
    | .ok term_to_merge_into_label =>
      match firstVal df_term_to_obsolete "term_label" with
      | .error e => .error e
      | .ok term_to_obsolete_label =>
        let t1 := blankCols df_term_to_obsolete keepCols
        match mapColTable t1 "term_label" (fun s => "obsolete " ++ s) with
        | .error e => .error e
        | .ok t2 =>
          let t3 := setColTable t2 "obsoletion_type" "owl:Class"
          let t4 := setColTable t3 "obsolete" "true"
          let t5 := setColTable t4 "contributors" ""
          let t6 := setColTable t5 "replacement_term" term_to_merge_into
          let t7 := setColTable t6 "replacement_label" term_to_merge_into_label
          let t8 := setColTable t7 "obsolescence_reason" "terms merged"
          let t9 := setColTable t8 "GH_issue" (ghIssueURL issue)
          let u1 := setColTable df_term_to_obsolete2 "vbo_id" term_to_merge_into
          let u2 := setColTable u1 "term_label" ""
          let u3 := setColTable u2 "synonym_label_from_merged_term" term_to_obsolete_label
          let u4 := setColTable u3 "source_for_merged_term" term_to_obsolete
          let u5 := setColTable u4 "synonym_type_most_common_name" ""
          let u6 := setColTable u5 "GH_issue" (ghIssueURL issue)
          .ok (concatTables [t9, u6, df_term_to_merge_into])
  else
    .error (.keyError "vbo_id")

/-- The rows of `df` whose `vbo_id` cell equals `id` (the rows the mask
`df["vbo_id"] == id` selects). -/
def matching (df : Table) (id : String) : List Row :=
  df.rows.filter (fun r => cellD r "vbo_id" == id)

/-- The effect of the blanking loop on one row: fold the assignments of the
empty string over the columns of the frame, skipping the kept ones. -/
def blankRow (cols keep : List String) (r : Row) : Row :=
  cols.foldl (fun acc c => if c ∈ keep then acc else setCell acc c "") r

/-- The obsoletion row `O1` that `merge` derives from an obsolete-term row
`r` of a frame with columns `cols`: blank everything outside `keepCols`,
prepend `"obsolete "` to the label, then apply the seven scalar
assignments. -/
def o1Row (cols : List String) (r : Row) (term_to_merge_into
    term_to_merge_into_label : String) (issue : Nat) : Row :=
  let r0 := blankRow cols keepCols r
  let r1 := setCell r0 "term_label" ("obsolete " ++ cellD r0 "term_label")
  let r2 := setCell r1 "obsoletion_type" "owl:Class"
  let r3 := setCell r2 "obsolete" "true"
  let r4 := setCell r3 "contributors" ""
  let r5 := setCell r4 "replacement_term" term_to_merge_into
  let r6 := setCell r5 "replacement_label" term_to_merge_into_label
  let r7 := setCell r6 "obsolescence_reason" "terms merged"
  setCell r7 "GH_issue" (ghIssueURL issue)

/-- The synonym row `O2` that `merge` derives from an obsolete-term row `r`:
the six scalar assignments on an untouched copy of `r`. -/
def o2Row (r : Row) (term_to_obsolete term_to_merge_into
    term_to_obsolete_label : String) (issue : Nat) : Row :=
  let r1 := setCell r "vbo_id" term_to_merge_into
  let r2 := setCell r1 "term_label" ""
  let r3 := setCell r2 "synonym_label_from_merged_term" term_to_obsolete_label
  let r4 := setCell r3 "source_for_merged_term" term_to_obsolete
  let r5 := setCell r4 "synonym_type_most_common_name" ""
  setCell r5 "GH_issue" (ghIssueURL issue)

/-! ### Pandas object semantics: dataframes on a heap

`merge` above treats the dataframes as values.  In the notebook they are
Python objects: the two selections end in `.copy()`, and
`df_term_to_obsolete2` is another `.copy()`, so all the in-place column
assignments hit fresh objects and the frame of the caller is untouched.
`mergeH` makes this explicit: a heap of frames, references, allocation on
`.copy()`, and a heap write for every in-place assignment. -/

/-- Read the frame a reference points at. -/
def readH (h : List Table) (r : Nat) : Table := h.getD r ⟨[], []⟩

/-- In-place update of the frame a reference points at. -/
def writeH (h : List Table) (r : Nat) (t : Table) : List Table := h.set r t

/-- `merge` with pandas object semantics: the input frame is `readH h0
dfRef`; each `.copy()` appends a fresh frame (references `h0.length`,
`h0.length + 1`, `h0.length + 2`), each column assignment writes the
obsolete frame or its duplicate in place, and `pd.concat` allocates the
result frame, whose reference is returned. -/
def mergeH (h0 : List Table) (dfRef : Nat) (term_to_obsolete
    term_to_merge_into : String) (issue : Nat) :
    List Table × Except MergeError Nat :=
  let df := readH h0 dfRef
  if "vbo_id" ∈ df.cols then
    let n := h0.length
    let h1 := h0 ++ [selectEq df "vbo_id" term_to_merge_into]
    let h2 := h1 ++ [selectEq df "vbo_id" term_to_obsolete]
    let h3 := h2 ++ [readH h2 (n + 1)]
    match firstVal (readH h3 n) "term_label" with
    | .error e => (h3, .error e)
    | .ok term_to_merge_into_label =>
      match firstVal (readH h3 (n + 1)) "term_label" with
      | .error e => (h3, .error e)
      | .ok term_to_obsolete_label =>
        let h4 := writeH h3 (n + 1) (blankCols (readH h3 (n + 1)) keepCols)
        match mapColTable (readH h4 (n + 1)) "term_label"
            (fun s => "obsolete " ++ s) with
        | .error e => (h4, .error e)
        | .ok t2 =>
          let h5 := writeH h4 (n + 1) t2
          let h6 := writeH h5 (n + 1)
            (setColTable (readH h5 (n + 1)) "obsoletion_type" "owl:Class")
          let h7 := writeH h6 (n + 1)
            (setColTable (readH h6 (n + 1)) "obsolete" "true")
          let h8 := writeH h7 (n + 1)
            (setColTable (readH h7 (n + 1)) "contributors" "")
          let h9 := writeH h8 (n + 1)
            (setColTable (readH h8 (n + 1)) "replacement_term" term_to_merge_into)
          let h10 := writeH h9 (n + 1)
            (setColTable (readH h9 (n + 1)) "replacement_label" term_to_merge_into_label)
          let h11 := writeH h10 (n + 1)
            (setColTable (readH h10 (n + 1)) "obsolescence_reason" "terms merged")
          let h12 := writeH h11 (n + 1)
            (setColTable (readH h11 (n + 1)) "GH_issue" (ghIssueURL issue))
          let h13 := writeH h12 (n + 2)
            (setColTable (readH h12 (n + 2)) "vbo_id" term_to_merge_into)
          let h14 := writeH h13 (n + 2)
            (setColTable (readH h13 (n + 2)) "term_label" "")
          let h15 := writeH h14 (n + 2)
            (setColTable (readH h14 (n + 2)) "synonym_label_from_merged_term" term_to_obsolete_label)
          let h16 := writeH h15 (n + 2)
            (setColTable (readH h15 (n + 2)) "source_for_merged_term" term_to_obsolete)
          let h17 := writeH h16 (n + 2)
            (setColTable (readH h16 (n + 2)) "synonym_type_most_common_name" "")
          let h18 := writeH h17 (n + 2)
            (setColTable (readH h17 (n + 2)) "GH_issue" (ghIssueURL issue))
          let h19 := h18 ++
            [concatTables [readH h18 (n + 1), readH h18 (n + 2), readH h18 n]]
          (h19, .ok h18.length)
  else
    (h0, .error (.keyError "vbo_id"))

/-! ### Concrete tables for the worked examples -/

/-- A term row to obsolete: id `VBO:1`, label `Foo`. -/
def rowFoo : Row :=
  [("vbo_id", "VBO:1"), ("term_label", "Foo"), ("contributor", "alice"),
   ("notes", "n1")]

/-- A replacement term row: id `VBO:2`, label `Bar`. -/
def rowBar : Row :=
  [("vbo_id", "VBO:2"), ("term_label", "Bar"), ("contributor", "bob"),
   ("notes", "n2")]

/-- A small table with one row per term and an extra `notes` column. -/
def dfExample : Table :=
  ⟨["vbo_id", "term_label", "contributor", "notes"], [rowFoo, rowBar]⟩

/-- A table in which the id to obsolete matches two rows. -/
def dfDup : Table :=
  ⟨["vbo_id", "term_label"],
   [[("vbo_id", "VBO:1"), ("term_label", "Foo")],
    [("vbo_id", "VBO:1"), ("term_label", "Foo2")],
    [("vbo_id", "VBO:2"), ("term_label", "Bar")]]⟩

/-- A table that has only the two columns `merge` ever reads, and none of
the other columns the external-interface section expects
(`contributor`, `obsoletion_type`, `obsolete`, `contributors`,
`replacement_term`, `replacement_label`, `obsolescence_reason`,
`GH_issue`, `synonym_label_from_merged_term`, `source_for_merged_term`,
`synonym_type_most_common_name` are all absent). -/
def dfMin : Table :=
  ⟨["vbo_id", "term_label"],
   [[("vbo_id", "VBO:1"), ("term_label", "Foo")],
    [("vbo_id", "VBO:2"), ("term_label", "Bar")]]⟩

/-- A table without the `term_label` column. -/
def dfNoLabel : Table :=
  ⟨["vbo_id"], [[("vbo_id", "VBO:1")], [("vbo_id", "VBO:2")]]⟩

/-! ### Cell-level lemmas about `setCell` and `blankRow` -/

theorem getCell_nil (c : String) : getCell [] c = none := rfl

theorem getCell_cons (q : String × String) (ps : Row) (c : String) :
    getCell (q :: ps) c = if q.1 = c then some q.2 else getCell ps c := by
  by_cases h : q.1 = c
  · rw [if_pos h]
    simp [getCell, List.find?_cons_of_pos, h]
  · rw [if_neg h]
    simp [getCell, List.find?_cons_of_neg, h]

theorem update_entry_eq (c v : String) (p : String × String) :
    (if p.1 == c then (c, v) else p) = if p.1 = c then (c, v) else p := by
  simp

theorem getCell_map_update_self (r : Row) (c v : String)
    (h : r.any (fun p => p.1 == c) = true) :
    getCell (r.map (fun p => if p.1 == c then (c, v) else p)) c = some v := by
  induction r with
  | nil => simp at h
  | cons p ps ih =>
    simp only [List.map_cons, getCell_cons, update_entry_eq] at ih ⊢
    by_cases hp : p.1 = c
    · rw [if_pos hp]; simp
    · have h' : (ps.any fun p => p.1 == c) = true := by
        simp only [List.any_cons, Bool.or_eq_true, beq_iff_eq] at h
        exact h.resolve_left hp
      rw [if_neg hp, if_neg hp]
      exact ih h'

theorem getCell_map_update_ne (r : Row) (c v c' : String) (h : c' ≠ c) :
    getCell (r.map (fun p => if p.1 == c then (c, v) else p)) c' = getCell r c' := by
  induction r with
  | nil => simp
  | cons p ps ih =>
    simp only [List.map_cons, getCell_cons, update_entry_eq] at ih ⊢
    by_cases hp : p.1 = c
    · rw [if_pos hp]
      have h2 : ¬ ((c, v).1 = c') := fun hc => h hc.symm
      rw [if_neg h2, if_neg (fun hc => h (hp ▸ hc).symm)]
      exact ih
    · rw [if_neg hp]
      by_cases hp' : p.1 = c'
      · rw [if_pos hp', if_pos hp']
      · rw [if_neg hp', if_neg hp']
        exact ih

theorem getCell_append_single_self (r : Row) (c v : String)
    (h : r.any (fun p => p.1 == c) = false) :
    getCell (r ++ [(c, v)]) c = some v := by
  induction r with
  | nil => simp [getCell_cons]
  | cons p ps ih =>
    simp only [List.any_cons, Bool.or_eq_false_iff, beq_eq_false_iff_ne, ne_eq] at h
    simpa [List.cons_append, getCell_cons, h.1] using ih h.2

theorem getCell_append_single_ne (r : Row) (c v c' : String) (h : c' ≠ c) :
    getCell (r ++ [(c, v)]) c' = getCell r c' := by
  induction r with
  | nil => simp [getCell_cons, Ne.symm h]
  | cons p ps ih =>
    by_cases hp : p.1 = c' <;> simp [List.cons_append, getCell_cons, hp, ih]

theorem getCell_setCell_self (r : Row) (c v : String) :
    getCell (setCell r c v) c = some v := by
  unfold setCell
  by_cases h : r.any (fun p => p.1 == c) = true
  · rw [if_pos h]; exact getCell_map_update_self r c v h
  · rw [if_neg h]
    exact getCell_append_single_self r c v (by rwa [Bool.not_eq_true] at h)

theorem getCell_setCell_ne (r : Row) (c v c' : String) (h : c' ≠ c) :
    getCell (setCell r c v) c' = getCell r c' := by
  unfold setCell
  by_cases hany : r.any (fun p => p.1 == c) = true
  · rw [if_pos hany]; exact getCell_map_update_ne r c v c' h
  · rw [if_neg hany]; exact getCell_append_single_ne r c v c' h

theorem cellD_setCell_self (r : Row) (c v : String) :
    cellD (setCell r c v) c = v := by
  simp [cellD, getCell_setCell_self]

theorem cellD_setCell_ne (r : Row) (c v c' : String) (h : c' ≠ c) :
    cellD (setCell r c v) c' = cellD r c' := by
  simp [cellD, getCell_setCell_ne r c v c' h]

theorem cellD_blankRow (cols keep : List String) (r : Row) (c : String) :
    cellD (blankRow cols keep r) c =
      if c ∈ cols ∧ c ∉ keep then "" else cellD r c := by
  induction cols generalizing r with
  | nil => simp [blankRow]
  | cons c0 cs ih =>
    unfold blankRow at ih ⊢
    simp only [List.foldl_cons]
    by_cases h0 : c0 ∈ keep
    · rw [if_pos h0, ih r]
      by_cases hc : c ∈ keep
      · simp [hc]
      · by_cases hc0 : c = c0
        · exact absurd h0 (by rw [← hc0]; exact hc)
        · simp [hc, hc0, List.mem_cons]
    · rw [if_neg h0, ih (setCell r c0 "")]
      by_cases hc0 : c = c0
      · subst hc0
        by_cases hcs : c ∈ cs
        · simp [hcs, h0]
        · simp [hcs, h0, cellD_setCell_self]
      · rw [cellD_setCell_ne r c0 "" c hc0]
        by_cases hcs : c ∈ cs <;> by_cases hck : c ∈ keep <;>
          simp [hcs, hck, hc0, List.mem_cons]

/-! ### Table-level lemmas about `merge` -/

theorem selectEq_vbo (df : Table) (id : String) :
    selectEq df "vbo_id" id = ⟨df.cols, matching df id⟩ := rfl

theorem firstVal_cons (cols : List String) (r : Row) (rs : List Row)
    (c : String) (h : c ∈ cols) :
    firstVal ⟨cols, r :: rs⟩ c = .ok (cellD r c) := by
  simp [firstVal, getSeries, h, seriesHead]

theorem firstVal_nil (cols : List String) (c : String) (h : c ∈ cols) :
    firstVal ⟨cols, []⟩ c = .error .indexError := by
  simp [firstVal, getSeries, h, seriesHead]

theorem firstVal_missing (cols : List String) (rs : List Row) (c : String)
    (h : c ∉ cols) :
    firstVal ⟨cols, rs⟩ c = .error (.keyError c) := by
  simp [firstVal, getSeries, h]

theorem blankCols_foldl (L : List String) (keep : List String) (t : Table)
    (hL : ∀ c ∈ L, c ∈ t.cols) :
    L.foldl (fun acc c => if c ∈ keep then acc else setColTable acc c "") t =
      ⟨t.cols, t.rows.map (fun r =>
        L.foldl (fun acc c => if c ∈ keep then acc else setCell acc c "") r)⟩ := by
  induction L generalizing t with
  | nil => simp
  | cons c0 cs ih =>
    simp only [List.foldl_cons]
    by_cases h0 : c0 ∈ keep
    · rw [if_pos h0, ih t (fun c hc => hL c (List.mem_cons_of_mem c0 hc))]
      simp [h0]
    · rw [if_neg h0]
      have hc0 : c0 ∈ t.cols := hL c0 (List.mem_cons_self c0 cs)
      have hset : setColTable t c0 "" =
          ⟨t.cols, t.rows.map (fun r => setCell r c0 "")⟩ := by
        simp [setColTable, hc0]
      rw [hset, ih ⟨t.cols, t.rows.map (fun r => setCell r c0 "")⟩
        (fun c hc => hL c (List.mem_cons_of_mem c0 hc))]
      simp [h0, Function.comp_def]

theorem blankCols_eq (t : Table) (keep : List String) :
    blankCols t keep = ⟨t.cols, t.rows.map (blankRow t.cols keep)⟩ := by
  unfold blankCols blankRow
  exact blankCols_foldl t.cols keep t (fun c hc => hc)

/-- Master reduction lemma: when the `vbo_id` and `term_label` columns exist
and both ids match at least one row, `merge` succeeds, and its rows are the
obsoletion rows derived from every obsolete match, then the synonym rows
derived from every obsolete match, then every replacement match, the labels
being taken from the first match on each side. -/
theorem merge_rows_eq (df : Table) (A B : String) (i : Nat)
    (hv : "vbo_id" ∈ df.cols) (ht : "term_label" ∈ df.cols)
    {ra rb : Row} {ras rbs : List Row}
    (hA : matching df A = ra :: ras) (hB : matching df B = rb :: rbs) :
    (merge df A B i).map Table.rows = .ok
      ((ra :: ras).map (fun r => o1Row df.cols r B (cellD rb "term_label") i)
        ++ (ra :: ras).map (fun r => o2Row r A B (cellD ra "term_label") i)
        ++ (rb :: rbs)) := by
  unfold merge
  rw [if_pos hv]
  simp only [selectEq_vbo, hA, hB,
    firstVal_cons df.cols rb rbs "term_label" ht,
    firstVal_cons df.cols ra ras "term_label" ht]
  simp only [blankCols_eq, mapColTable, ht, if_true, setColTable, concatTables,
    unionCols, List.map_cons, List.map_nil, List.map_map, List.foldl_cons,
    List.foldl_nil, List.flatten, List.append_nil, Except.map,
    o1Row, o2Row, Function.comp_def, List.cons_append, List.append_assoc]

/-- Full characterization of the cells of the obsoletion row `O1`. -/
theorem cellD_o1Row (cols : List String) (r : Row) (B lblB : String)
    (i : Nat) (c : String) :
    cellD (o1Row cols r B lblB i) c =
      if c = "GH_issue" then ghIssueURL i
      else if c = "obsolescence_reason" then "terms merged"
      else if c = "replacement_label" then lblB
      else if c = "replacement_term" then B
      else if c = "contributors" then ""
      else if c = "obsolete" then "true"
      else if c = "obsoletion_type" then "owl:Class"
      else if c = "term_label" then "obsolete " ++ cellD r "term_label"
      else if c ∈ cols ∧ c ∉ keepCols then ""
      else cellD r c := by
  unfold o1Row
  split_ifs with h1 h2 h3 h4 h5 h6 h7 h8 h9 <;>
    simp_all [cellD_setCell_self, cellD_setCell_ne, cellD_blankRow, keepCols]

/-- Full characterization of the cells of the synonym row `O2`. -/
theorem cellD_o2Row (r : Row) (A B lblA : String) (i : Nat) (c : String) :
    cellD (o2Row r A B lblA i) c =
      if c = "GH_issue" then ghIssueURL i
      else if c = "synonym_type_most_common_name" then ""
      else if c = "source_for_merged_term" then A
      else if c = "synonym_label_from_merged_term" then lblA
      else if c = "term_label" then ""
      else if c = "vbo_id" then B
      else cellD r c := by
  unfold o2Row
  split_ifs with h1 h2 h3 h4 h5 h6 <;>
    simp_all [cellD_setCell_self, cellD_setCell_ne]

/-- A row selected by the `vbo_id` mask has that `vbo_id`. -/
theorem matching_head_vbo (df : Table) (id : String) {r : Row}
    {rs : List Row} (h : matching df id = r :: rs) :
    cellD r "vbo_id" = id := by
  have hmem : r ∈ df.rows.filter (fun r => cellD r "vbo_id" == id) := by
    have : r ∈ matching df id := by rw [h]; exact List.mem_cons_self r rs
    exact this
  simpa using (List.mem_filter.mp hmem).2

/-- When one of the two ids matches no row, `.values[0]` is taken of an
empty selection and `merge` aborts with the index error. -/
theorem merge_indexError (df : Table) (A B : String) (i : Nat)
    (hv : "vbo_id" ∈ df.cols) (ht : "term_label" ∈ df.cols)
    (h : matching df A = [] ∨ matching df B = []) :
    merge df A B i = .error .indexError := by
  unfold merge
  rw [if_pos hv]
  cases hB : matching df B with
  | nil =>
    simp only [selectEq_vbo, hB, firstVal_nil df.cols "term_label" ht]
  | cons rb rbs =>
    have hA : matching df A = [] := by
      rcases h with h | h
      · exact h
      · rw [h] at hB; cases hB
    simp only [selectEq_vbo, hA, hB,
      firstVal_cons df.cols rb rbs "term_label" ht,
      firstVal_nil df.cols "term_label" ht]

/-- When the `vbo_id` column is absent the boolean mask raises the key
error for it; when it is present but `term_label` is absent, reading the
replacement label raises the key error for `term_label`. -/
theorem merge_keyError (df : Table) (A B : String) (i : Nat)
    (h : ¬ ("vbo_id" ∈ df.cols ∧ "term_label" ∈ df.cols)) :
    merge df A B i = .error (.keyError
      (if "vbo_id" ∈ df.cols then "term_label" else "vbo_id")) := by
  unfold merge
  by_cases hv : "vbo_id" ∈ df.cols
  · have ht : "term_label" ∉ df.cols := fun ht => h ⟨hv, ht⟩
    rw [if_pos hv, if_pos hv]
    simp only [selectEq_vbo,
      firstVal_missing df.cols (matching df B) "term_label" ht]
  · rw [if_neg hv, if_neg hv]

theorem readH_append_lt (h l : List Table) (r : Nat) (hr : r < h.length) :
    readH (h ++ l) r = readH h r := by
  simp [readH, List.getD_eq_getElem?_getD, List.getElem?_append, hr]

theorem readH_writeH_lt (h : List Table) (j : Nat) (t : Table) (r : Nat)
    (hr : r < j) :
    readH (writeH h j t) r = readH h r := by
  simp [readH, writeH, List.getD_eq_getElem?_getD,
    List.getElem?_set_ne (Nat.ne_of_gt hr)]

theorem mergeH_input_unchanged (h0 : List Table) (dfRef : Nat)
    (A B : String) (i : Nat) (hr : dfRef < h0.length) :
    readH (mergeH h0 dfRef A B i).1 dfRef = readH h0 dfRef := by
  unfold mergeH
  dsimp only
  split
  · split
    · rw [readH_append_lt, readH_append_lt, readH_append_lt] <;>
        (try simp only [List.length_append, List.length_cons, List.length_nil]) <;>
        omega
    · split
      · rw [readH_append_lt, readH_append_lt, readH_append_lt] <;>
          (try simp only [List.length_append, List.length_cons, List.length_nil]) <;>
          omega
      · split
        · rw [readH_writeH_lt, readH_append_lt, readH_append_lt,
            readH_append_lt] <;>
            (try simp only [List.length_append, List.length_cons, List.length_nil]) <;>
            omega
        · rw [readH_append_lt, readH_writeH_lt, readH_writeH_lt,
            readH_writeH_lt, readH_writeH_lt, readH_writeH_lt, readH_writeH_lt,
            readH_writeH_lt, readH_writeH_lt, readH_writeH_lt, readH_writeH_lt,
            readH_writeH_lt, readH_writeH_lt, readH_writeH_lt, readH_writeH_lt,
            readH_writeH_lt, readH_append_lt, readH_append_lt,
            readH_append_lt] <;>
            (try simp only [writeH, List.length_set, List.length_append,
              List.length_cons, List.length_nil]) <;>
            omega
  · rfl

set_option maxHeartbeats 1000000 in
/-- Refinement: running `mergeH` on a heap and reading the returned
reference yields exactly what the value-level `merge` computes on the frame
the input reference points at, error cases included. -/
theorem mergeH_refines_merge (h0 : List Table) (dfRef : Nat) (A B : String)
    (i : Nat) :
    ((mergeH h0 dfRef A B i).2).map (readH (mergeH h0 dfRef A B i).1) =
      merge (readH h0 dfRef) A B i := by
  unfold mergeH merge
  generalize readH h0 dfRef = df
  dsimp only
  by_cases hv : "vbo_id" ∈ df.cols
  · simp only [hv, if_true]
    simp only [readH, writeH, List.getD_eq_getElem?_getD, List.getElem?_append,
      List.getElem?_set, List.length_append, List.length_cons, List.length_nil,
      List.length_set, lt_irrefl, Nat.sub_self, add_lt_add_iff_left,
      Nat.lt_irrefl, Nat.add_sub_cancel_left, le_refl, Nat.le_add_right,
      lt_add_iff_pos_right, Nat.zero_lt_succ, if_true, if_false,
      Nat.add_right_cancel_iff, add_right_inj, Nat.zero_add, Nat.add_assoc,
      List.getElem?_cons_zero, List.getElem?_cons_succ,
      List.getElem?_nil, Option.getD_some]
    cases hfB : firstVal (selectEq df "vbo_id" B) "term_label" with
    | error e => simp [Except.map]
    | ok lblB =>
      cases hfA : firstVal (selectEq df "vbo_id" A) "term_label" with
      | error e => simp [Except.map]
      | ok lblA =>
        cases hmc : mapColTable (blankCols (selectEq df "vbo_id" A) keepCols)
            "term_label" (fun s => "obsolete " ++ s) with
        | error e => simp [Except.map]
        | ok t2 =>
          simp only [Except.map, readH, writeH, List.getD_eq_getElem?_getD,
            List.getElem?_append, List.getElem?_set, List.length_append,
            List.length_cons, List.length_nil, List.length_set, lt_irrefl,
            Nat.sub_self, add_lt_add_iff_left, Nat.lt_irrefl,
            Nat.add_sub_cancel_left, le_refl, Nat.le_add_right,
            lt_add_iff_pos_right, Nat.zero_lt_succ, if_true, if_false,
            Nat.add_right_cancel_iff, add_right_inj, Nat.zero_add,
            Nat.add_assoc, List.getElem?_cons_zero, List.getElem?_cons_succ,
            List.getElem?_nil, Option.getD_some]
          norm_num
  · simp [hv, Except.map]

/-! ### The claims -/

/-- C1: for a table in which `term_to_obsolete` matches exactly one row and
`term_to_merge_into` matches exactly one row, `merge` returns exactly three
rows, in the order obsoletion row `O1`, synonym row `O2`, replacement row
`R`. -/
theorem merge_three_rows (df : Table) (A B : String) (i : Nat)
    (hv : "vbo_id" ∈ df.cols) (ht : "term_label" ∈ df.cols)
    {ra rb : Row} (hA : matching df A = [ra]) (hB : matching df B = [rb]) :
    (merge df A B i).map Table.rows =
      .ok [o1Row df.cols ra B (cellD rb "term_label") i,
           o2Row ra A B (cellD ra "term_label") i, rb] := by
  simpa using merge_rows_eq df A B i hv ht hA hB

/-- Witness for `merge_three_rows` at the concrete example table. -/
theorem merge_three_rows_witness :
    ("vbo_id" ∈ dfExample.cols ∧ "term_label" ∈ dfExample.cols ∧
      matching dfExample "VBO:1" = [rowFoo] ∧
      matching dfExample "VBO:2" = [rowBar]) ∧
    (merge dfExample "VBO:1" "VBO:2" 123).map Table.rows =
      .ok [o1Row dfExample.cols rowFoo "VBO:2" (cellD rowBar "term_label") 123,
           o2Row rowFoo "VBO:1" "VBO:2" (cellD rowFoo "term_label") 123,
           rowBar] :=
  ⟨⟨by decide, by decide, by decide, by decide⟩,
    @merge_three_rows dfExample "VBO:1" "VBO:2" 123 (by decide) (by decide)
      rowFoo rowBar (by decide) (by decide)⟩

/-- C2: under the same precondition, with obsolete label `L` and replacement
label `M`, the obsoletion row `O1` has `vbo_id = A`,
`term_label = "obsolete " ++ L`, `obsoletion_type = "owl:Class"`,
`obsolete = "true"`, `contributors = ""`, `replacement_term = B`,
`replacement_label = M`, `obsolescence_reason = "terms merged"` and the
fixed-format GitHub issue URL ending in the issue number. -/
theorem merge_obsoletion_row_fields (df : Table) (A B : String) (i : Nat)
    (hv : "vbo_id" ∈ df.cols) (ht : "term_label" ∈ df.cols)
    {ra rb : Row} (hA : matching df A = [ra]) (hB : matching df B = [rb])
    (L M : String) (hL : cellD ra "term_label" = L)
    (hM : cellD rb "term_label" = M) :
    ∃ o1 o2, (merge df A B i).map Table.rows = .ok [o1, o2, rb] ∧
      cellD o1 "vbo_id" = A ∧
      cellD o1 "term_label" = "obsolete " ++ L ∧
      cellD o1 "obsoletion_type" = "owl:Class" ∧
      cellD o1 "obsolete" = "true" ∧
      cellD o1 "contributors" = "" ∧
      cellD o1 "replacement_term" = B ∧
      cellD o1 "replacement_label" = M ∧
      cellD o1 "obsolescence_reason" = "terms merged" ∧
      cellD o1 "GH_issue" =
        "https://github.com/monarch-initiative/vertebrate-breed-ontology/issues/"
          ++ toString i := by
  refine ⟨o1Row df.cols ra B (cellD rb "term_label") i,
    o2Row ra A B (cellD ra "term_label") i,
    by simpa using merge_rows_eq df A B i hv ht hA hB,
    ?_, ?_, ?_, ?_, ?_, ?_, ?_, ?_, ?_⟩ <;>
  · rw [cellD_o1Row]
    simp [keepCols, ghIssueURL, hL, hM, matching_head_vbo df A hA]

/-- Witness for `merge_obsoletion_row_fields` at the example table. -/
theorem merge_obsoletion_row_fields_witness :
    ("vbo_id" ∈ dfExample.cols ∧ "term_label" ∈ dfExample.cols ∧
      matching dfExample "VBO:1" = [rowFoo] ∧
      matching dfExample "VBO:2" = [rowBar] ∧
      cellD rowFoo "term_label" = "Foo" ∧ cellD rowBar "term_label" = "Bar") ∧
    (∃ o1 o2,
      (merge dfExample "VBO:1" "VBO:2" 123).map Table.rows =
        .ok [o1, o2, rowBar] ∧
      cellD o1 "vbo_id" = "VBO:1" ∧
      cellD o1 "term_label" = "obsolete " ++ "Foo" ∧
      cellD o1 "obsoletion_type" = "owl:Class" ∧
      cellD o1 "obsolete" = "true" ∧
      cellD o1 "contributors" = "" ∧
      cellD o1 "replacement_term" = "VBO:2" ∧
      cellD o1 "replacement_label" = "Bar" ∧
      cellD o1 "obsolescence_reason" = "terms merged" ∧
      cellD o1 "GH_issue" =
        "https://github.com/monarch-initiative/vertebrate-breed-ontology/issues/"
          ++ toString 123) :=
  ⟨⟨by decide, by decide, by decide, by decide, by decide, by decide⟩,
    @merge_obsoletion_row_fields dfExample "VBO:1" "VBO:2" 123 (by decide)
      (by decide) rowFoo rowBar (by decide) (by decide) "Foo" "Bar"
      (by decide) (by decide)⟩

/-- C3: under the same precondition the synonym row `O2` is the obsolete
row with `vbo_id` set to `B`, `term_label` blanked,
`synonym_label_from_merged_term` set to the label of the obsolete row,
`source_for_merged_term` set to `A`, `synonym_type_most_common_name`
blanked and the same issue URL as `O1`; every other column keeps the
value from the obsolete row. -/
theorem merge_synonym_row_fields (df : Table) (A B : String) (i : Nat)
    (hv : "vbo_id" ∈ df.cols) (ht : "term_label" ∈ df.cols)
    {ra rb : Row} (hA : matching df A = [ra]) (hB : matching df B = [rb]) :
    ∃ o1 o2, (merge df A B i).map Table.rows = .ok [o1, o2, rb] ∧
      cellD o2 "vbo_id" = B ∧
      cellD o2 "term_label" = "" ∧
      cellD o2 "synonym_label_from_merged_term" = cellD ra "term_label" ∧
      cellD o2 "source_for_merged_term" = A ∧
      cellD o2 "synonym_type_most_common_name" = "" ∧
      cellD o2 "GH_issue" = cellD o1 "GH_issue" ∧
      cellD o2 "GH_issue" = ghIssueURL i ∧
      (∀ c, c ∉ ["vbo_id", "term_label", "synonym_label_from_merged_term",
          "source_for_merged_term", "synonym_type_most_common_name",
          "GH_issue"] →
        cellD o2 c = cellD ra c) := by
  refine ⟨o1Row df.cols ra B (cellD rb "term_label") i,
    o2Row ra A B (cellD ra "term_label") i,
    by simpa using merge_rows_eq df A B i hv ht hA hB,
    ?_, ?_, ?_, ?_, ?_, ?_, ?_, ?_⟩
  · rw [cellD_o2Row]; simp
  · rw [cellD_o2Row]; simp
  · rw [cellD_o2Row]; simp
  · rw [cellD_o2Row]; simp
  · rw [cellD_o2Row]; simp
  · rw [cellD_o2Row, cellD_o1Row]; simp
  · rw [cellD_o2Row]; simp
  · intro c hc
    simp only [List.mem_cons, List.not_mem_nil, or_false, not_or] at hc
    obtain ⟨n1, n2, n3, n4, n5, n6⟩ := hc
    rw [cellD_o2Row]
    simp [n1, n2, n3, n4, n5, n6]

/-- Witness for `merge_synonym_row_fields` at the example table. -/
theorem merge_synonym_row_fields_witness :
    ("vbo_id" ∈ dfExample.cols ∧ "term_label" ∈ dfExample.cols ∧
      matching dfExample "VBO:1" = [rowFoo] ∧
      matching dfExample "VBO:2" = [rowBar]) ∧
    (∃ o1 o2,
      (merge dfExample "VBO:1" "VBO:2" 123).map Table.rows =
        .ok [o1, o2, rowBar] ∧
      cellD o2 "vbo_id" = "VBO:2" ∧
      cellD o2 "term_label" = "" ∧
      cellD o2 "synonym_label_from_merged_term" = cellD rowFoo "term_label" ∧
      cellD o2 "source_for_merged_term" = "VBO:1" ∧
      cellD o2 "synonym_type_most_common_name" = "" ∧
      cellD o2 "GH_issue" = cellD o1 "GH_issue" ∧
      cellD o2 "GH_issue" = ghIssueURL 123 ∧
      (∀ c, c ∉ ["vbo_id", "term_label", "synonym_label_from_merged_term",
          "source_for_merged_term", "synonym_type_most_common_name",
          "GH_issue"] →
        cellD o2 c = cellD rowFoo c)) :=
  ⟨⟨by decide, by decide, by decide, by decide⟩,
    @merge_synonym_row_fields dfExample "VBO:1" "VBO:2" 123 (by decide)
      (by decide) rowFoo rowBar (by decide) (by decide)⟩

/-- C4: in the obsoletion row `O1` the `contributor` column keeps the
value from the obsolete row, and every column of the table outside
`keepCols = ["term_label", "vbo_id", "contributor"]` that is not one of the
seven explicitly assigned columns is blank. -/
theorem merge_obsoletion_row_blanked (df : Table) (A B : String) (i : Nat)
    (hv : "vbo_id" ∈ df.cols) (ht : "term_label" ∈ df.cols)
    {ra rb : Row} (hA : matching df A = [ra]) (hB : matching df B = [rb]) :
    ∃ o1 o2, (merge df A B i).map Table.rows = .ok [o1, o2, rb] ∧
      cellD o1 "contributor" = cellD ra "contributor" ∧
      (∀ c ∈ df.cols, c ∉ keepCols →
        c ∉ ["obsoletion_type", "obsolete", "contributors",
            "replacement_term", "replacement_label", "obsolescence_reason",
            "GH_issue"] →
        cellD o1 c = "") := by
  refine ⟨o1Row df.cols ra B (cellD rb "term_label") i,
    o2Row ra A B (cellD ra "term_label") i,
    by simpa using merge_rows_eq df A B i hv ht hA hB, ?_, ?_⟩
  · rw [cellD_o1Row]; simp [keepCols]
  · intro c hcols hkeep hassigned
    have hkeep2 := hkeep
    simp only [keepCols, List.mem_cons, List.not_mem_nil, or_false,
      not_or] at hkeep2
    obtain ⟨k1, k2, k3⟩ := hkeep2
    simp only [List.mem_cons, List.not_mem_nil, or_false, not_or] at hassigned
    obtain ⟨a1, a2, a3, a4, a5, a6, a7⟩ := hassigned
    rw [cellD_o1Row]
    simp [a1, a2, a3, a4, a5, a6, a7, k1, hcols, hkeep]

/-- Witness for `merge_obsoletion_row_blanked` at the example table. -/
theorem merge_obsoletion_row_blanked_witness :
    ("vbo_id" ∈ dfExample.cols ∧ "term_label" ∈ dfExample.cols ∧
      matching dfExample "VBO:1" = [rowFoo] ∧
      matching dfExample "VBO:2" = [rowBar]) ∧
    (∃ o1 o2,
      (merge dfExample "VBO:1" "VBO:2" 123).map Table.rows =
        .ok [o1, o2, rowBar] ∧
      cellD o1 "contributor" = cellD rowFoo "contributor" ∧
      (∀ c ∈ dfExample.cols, c ∉ keepCols →
        c ∉ ["obsoletion_type", "obsolete", "contributors",
            "replacement_term", "replacement_label", "obsolescence_reason",
            "GH_issue"] →
        cellD o1 c = "")) :=
  ⟨⟨by decide, by decide, by decide, by decide⟩,
    @merge_obsoletion_row_blanked dfExample "VBO:1" "VBO:2" 123 (by decide)
      (by decide) rowFoo rowBar (by decide) (by decide)⟩

/-- C5: under the same precondition the third returned row is the original
replacement row of the input table, unchanged in every column. -/
theorem merge_replacement_row_unchanged (df : Table) (A B : String) (i : Nat)
    (hv : "vbo_id" ∈ df.cols) (ht : "term_label" ∈ df.cols)
    {ra rb : Row} (hA : matching df A = [ra]) (hB : matching df B = [rb]) :
    ∃ o1 o2, (merge df A B i).map Table.rows = .ok [o1, o2, rb] :=
  ⟨_, _, by simpa using merge_rows_eq df A B i hv ht hA hB⟩

/-- Witness for `merge_replacement_row_unchanged` at the example table. -/
theorem merge_replacement_row_unchanged_witness :
    ("vbo_id" ∈ dfExample.cols ∧ "term_label" ∈ dfExample.cols ∧
      matching dfExample "VBO:1" = [rowFoo] ∧
      matching dfExample "VBO:2" = [rowBar]) ∧
    (∃ o1 o2, (merge dfExample "VBO:1" "VBO:2" 123).map Table.rows =
      .ok [o1, o2, rowBar]) :=
  ⟨⟨by decide, by decide, by decide, by decide⟩,
    @merge_replacement_row_unchanged dfExample "VBO:1" "VBO:2" 123 (by decide)
      (by decide) rowFoo rowBar (by decide) (by decide)⟩

/-- C6 counterexample: in `dfDup` the id `VBO:1` matches two rows and
`merge` returns five rows, not three. -/
theorem merge_duplicates_five_rows :
    (merge dfDup "VBO:1" "VBO:2" 1).map (fun t => t.rows.length) = .ok 5 ∧
      (5 : Nat) ≠ 3 := by decide

/-- C6 amended: when an id matches several rows, `merge` does not keep only
the first match: every matching row of the obsolete id is turned into an
obsoletion row and into a synonym row, every matching row of the
replacement id is returned, and only the two labels are taken from the
first matches; the result has `2·m + k` rows for `m` obsolete matches and
`k` replacement matches. -/
theorem merge_duplicates_all_matches (df : Table) (A B : String) (i : Nat)
    (hv : "vbo_id" ∈ df.cols) (ht : "term_label" ∈ df.cols)
    {ra rb : Row} {ras rbs : List Row}
    (hA : matching df A = ra :: ras) (hB : matching df B = rb :: rbs) :
    ∃ t, merge df A B i = .ok t ∧
      t.rows =
        (ra :: ras).map (fun r => o1Row df.cols r B (cellD rb "term_label") i)
          ++ (ra :: ras).map (fun r => o2Row r A B (cellD ra "term_label") i)
          ++ (rb :: rbs) ∧
      t.rows.length =
        2 * (matching df A).length + (matching df B).length := by
  have h := merge_rows_eq df A B i hv ht hA hB
  cases hm : merge df A B i with
  | error e => rw [hm] at h; simp [Except.map] at h
  | ok t =>
    rw [hm] at h
    simp only [Except.map, Except.ok.injEq] at h
    refine ⟨t, rfl, h, ?_⟩
    rw [h, hA, hB]
    simp only [List.length_append, List.length_map, List.length_cons]
    omega

/-- Witness for `merge_duplicates_all_matches` at the duplicate table. -/
theorem merge_duplicates_all_matches_witness :
    ("vbo_id" ∈ dfDup.cols ∧ "term_label" ∈ dfDup.cols ∧
      matching dfDup "VBO:1" =
        [[("vbo_id", "VBO:1"), ("term_label", "Foo")],
         [("vbo_id", "VBO:1"), ("term_label", "Foo2")]] ∧
      matching dfDup "VBO:2" = [[("vbo_id", "VBO:2"), ("term_label", "Bar")]]) ∧
    (∃ t, merge dfDup "VBO:1" "VBO:2" 1 = .ok t ∧
      t.rows =
        ([[("vbo_id", "VBO:1"), ("term_label", "Foo")],
          [("vbo_id", "VBO:1"), ("term_label", "Foo2")]].map
            (fun r => o1Row dfDup.cols r "VBO:2"
              (cellD [("vbo_id", "VBO:2"), ("term_label", "Bar")] "term_label") 1))
          ++ ([[("vbo_id", "VBO:1"), ("term_label", "Foo")],
               [("vbo_id", "VBO:1"), ("term_label", "Foo2")]].map
            (fun r => o2Row r "VBO:1" "VBO:2"
              (cellD [("vbo_id", "VBO:1"), ("term_label", "Foo")] "term_label") 1))
          ++ [[("vbo_id", "VBO:2"), ("term_label", "Bar")]] ∧
      t.rows.length =
        2 * (matching dfDup "VBO:1").length + (matching dfDup "VBO:2").length) :=
  ⟨⟨by decide, by decide, by decide, by decide⟩,
    @merge_duplicates_all_matches dfDup "VBO:1" "VBO:2" 1 (by decide)
      (by decide) [("vbo_id", "VBO:1"), ("term_label", "Foo")]
      [("vbo_id", "VBO:2"), ("term_label", "Bar")]
      [[("vbo_id", "VBO:1"), ("term_label", "Foo2")]] []
      (by decide) (by decide)⟩

/-- Witness for `merge_indexError` (C7): an id absent from the table makes
`merge` abort with the index error. -/
theorem merge_indexError_witness :
    ("vbo_id" ∈ dfExample.cols ∧ "term_label" ∈ dfExample.cols ∧
      matching dfExample "VBO:9" = []) ∧
    merge dfExample "VBO:9" "VBO:2" 5 = .error .indexError :=
  ⟨⟨by decide, by decide, by decide⟩,
    merge_indexError dfExample "VBO:9" "VBO:2" 5 (by decide) (by decide)
      (Or.inl (by decide))⟩

/-- C8: `merge` is not idempotent: applying it again, with the same
arguments, to the three-row output of a successful merge yields a different
result. -/
theorem merge_not_idempotent :
    ∃ t1, merge dfMin "VBO:1" "VBO:2" 123 = .ok t1 ∧
      merge t1 "VBO:1" "VBO:2" 123 ≠ .ok t1 :=
  ⟨_, rfl, by decide⟩

/-- C9 counterexample: `dfMin` is missing the expected columns
`obsoletion_type` and `GH_issue` (among others), yet `merge` succeeds —
pandas column assignment creates absent columns instead of raising. -/
theorem merge_missing_columns_succeeds :
    "obsoletion_type" ∉ dfMin.cols ∧ "GH_issue" ∉ dfMin.cols ∧
      (merge dfMin "VBO:1" "VBO:2" 7).isOk = true := by decide

/-- Witness for `merge_keyError` (C9 amended): a table without the
`term_label` column makes `merge` abort with the key error for it. -/
theorem merge_keyError_witness :
    (¬ ("vbo_id" ∈ dfNoLabel.cols ∧ "term_label" ∈ dfNoLabel.cols)) ∧
    merge dfNoLabel "VBO:1" "VBO:2" 7 =
      .error (.keyError
        (if "vbo_id" ∈ dfNoLabel.cols then "term_label" else "vbo_id")) :=
  ⟨by decide, merge_keyError dfNoLabel "VBO:1" "VBO:2" 7 (by decide)⟩

/-- Witness for `mergeH_input_unchanged` (C10): running `mergeH` on a heap
holding the example frame leaves the frame unchanged. -/
theorem mergeH_input_unchanged_witness :
    (0 < ([dfExample] : List Table).length) ∧
    readH (mergeH [dfExample] 0 "VBO:1" "VBO:2" 3).1 0 = readH [dfExample] 0 :=
  ⟨by decide, mergeH_input_unchanged [dfExample] 0 "VBO:1" "VBO:2" 3 (by decide)⟩

end VBO
